import Mathlib

/-!
Verification of the zoo/animal/user record-keeping service.

This file gives a shallow embedding, in Lean, of the service's core:
the bidirectional zoo/animal relationship handlers and the token-based
identity and credential-lifecycle handlers.  Every definition is
translated from the JavaScript source:

* `src/models/zooModel.js` (Zoo and Animal schemas), `src/unnamed/part_000`
  (User schema) — the data model;
* `src/routes/animalRoutes.js` — the route handlers mounted at
  `/api/animals` by `src/app.js` (`routeCreateAnimal`, `routeUpdateAnimal`,
  `routeDeleteAnimal`, `routeGetAnimalsByZoo`);
* `src/controllers/animalController.js` — the controller variants
  (`createAnimal`, `deleteAnimal`); these are not mounted by `src/app.js`
  but are part of the source and differ observably from the route handlers;
* `src/unnamed/part_001` — the zoo router (`routeCreateZoo`);
* `src/middlewares/auth.js` — `authMiddleware`;
* `src/controllers/authController.js` — `login`;
* `src/hashPassword.js` (user router section) — `register`,
  `changePassword`, `resetPassword`.

Modelling conventions, used throughout:

* MongoDB document identifiers are opaque unique strings; they are
  modelled as naturals.  `_id` is the store's primary key, so at most one
  document of a collection carries a given identifier; `findByIdAndDelete`
  and `save` on a fetched document are therefore modelled as `filter` /
  `map` over the collection keyed on that identifier.
* bcrypt is modelled symbolically: `PwValue.hashv s p` stands for the
  bcrypt digest of plaintext `p` under salt `s`.  `bcryptCompare`
  re-derives the digest of the candidate plaintext from the salt stored
  inside the hash string and compares digests, exactly as
  `bcrypt.compare` does; on a stored value that is not a bcrypt hash
  string (`PwValue.plainv`) it returns `false`, as bcryptjs does on a
  malformed hash.
* JSON Web Tokens are modelled symbolically: `jwtSign` records the
  signing key, the payload and the expiry (`expiresIn: '1h'` gives
  `exp = iat + 3600`); `jwtVerify` succeeds only when the verifying key
  equals the signing key and the wall clock is before `exp`, exactly the
  observable behaviour of `jsonwebtoken.sign`/`verify`.  A header token
  that is not a well-formed signed token at all is `TokenStr.malformed`.
* mongoose `required: true` on a `String` field rejects an absent field
  and the empty string; request fields that feed such validators are
  modelled so that absent-or-empty input makes `save` fail with the 400
  response of the handler's `catch` block.  Stored documents were
  validated when inserted, so re-saving a fetched document is modelled as
  always succeeding.
* Each handler returns its HTTP outcome (`Outcome`) together with the
  post-state of the store; a thrown exception that escapes the handler
  (no `res.*` call at all) is a distinguished outcome.
-/

namespace ZooApp

/-- Animal document (`animalSchema` in `src/models/zooModel.js`): required
`name` and `species`, optional reference `zoo` to a Zoo document. -/
structure Animal where
  id : Nat
  name : String
  species : String
  zoo : Option Nat
deriving Repr, DecidableEq

/-- Zoo document (`zooSchema` in `src/models/zooModel.js`): required `name`
and `location`, and an ordered collection `animals` of Animal ids. -/
structure Zoo where
  id : Nat
  name : String
  location : String
  animals : List Nat
deriving Repr, DecidableEq

/-- A value held in a user's `password` field: either a raw plaintext
string, or a bcrypt hash string (symbolically, the digest of plaintext
`p` under salt `s`). -/
inductive PwValue where
  | plainv (p : String)
  | hashv (salt : Nat) (p : String)
deriving Repr, DecidableEq

/-- User document (`userSchema` in `src/unnamed/part_000`): unique required
`username`, required `password`. -/
structure User where
  id : Nat
  username : String
  password : PwValue
deriving Repr, DecidableEq

/-- `bcrypt.hash(p, salt)`: produces the bcrypt hash string, which encodes
the salt and the digest of `p` under that salt. -/
def bcryptHash (salt : Nat) (p : String) : PwValue :=
  .hashv salt p

/-- `bcrypt.compare(candidate, stored)`: extracts the salt from the stored
hash string, re-derives the digest of the candidate under that salt, and
compares digests.  Symbolically the digest of `q` under salt `s` is `q`
tagged with `s`, so the digest comparison reduces to `candidate == p`.
On a stored value that is not a bcrypt hash string it returns `false`
(bcryptjs never compares plaintext to plaintext). -/
def bcryptCompare (candidate : String) (stored : PwValue) : Bool :=
  match stored with
  | .hashv _ p => candidate == p
  | .plainv _ => false

/-- JWT payload as used by this service: the user id, and (only for tokens
issued by `login`) the denormalized username. -/
structure JwtPayload where
  id : Nat
  username : Option String
deriving Repr, DecidableEq

/-- A signed JWT: the signing key, the payload, and the `exp` claim. -/
structure Jwt where
  key : Nat
  payload : JwtPayload
  exp : Nat
deriving Repr, DecidableEq

/-- `jwt.sign(payload, key, { expiresIn: '1h' })` at wall-clock time `now`:
the `exp` claim is one hour after issuance. -/
def jwtSign (key : Nat) (payload : JwtPayload) (now : Nat) : Jwt :=
  { key := key, payload := payload, exp := now + 3600 }

/-- A token string as carried by a request: either not a well-formed signed
token at all, or a signed token. -/
inductive TokenStr where
  | malformed
  | signed (j : Jwt)
deriving Repr, DecidableEq

/-- `jwt.verify(token, key)` at wall-clock time `now`: fails on a malformed
token, a token signed with a different key, or a token whose `exp` claim
is not in the future; otherwise yields the payload. -/
def jwtVerify (key : Nat) (t : TokenStr) (now : Nat) : Option JwtPayload :=
  match t with
  | .malformed => none
  | .signed j => if j.key = key ∧ now < j.exp then some j.payload else none

/-- `User.findById(i)` over the users collection. -/
def findUserById (users : List User) (i : Nat) : Option User :=
  users.find? (fun u => u.id == i)

/-- The value of the request's `Authorization` header after
`.replace('Bearer ', '')`: either nothing is left (e.g. the header was
exactly `"Bearer "`), or some token string remains. -/
inductive AuthHeader where
  | emptyToken
  | withToken (t : TokenStr)
deriving Repr, DecidableEq

/-- Observable outcome of `authMiddleware` (`src/middlewares/auth.js`). -/
inductive AuthOutcome where
  /-- an exception escaped the middleware before any response was sent -/
  | thrown
  /-- `res.status(401)` with the given message -/
  | unauthorized (msg : String)
  /-- `res.status(404)` with the given message -/
  | notFound (msg : String)
  /-- `next()` was called with `req.user` set to the given user -/
  | ok (u : User)
deriving Repr, DecidableEq

/-- `authMiddleware` (`src/middlewares/auth.js` lines 4-30).  The very
first statement is
`req.header('Authorization').replace('Bearer ', '')`, evaluated outside
the `try` block: when the header is absent, `req.header` returns
`undefined` and `.replace` throws a `TypeError` that escapes the
middleware — no 401 is produced.  Otherwise: an empty remaining token
gives 401 `"Autenticación requerida"`; a token that fails `jwt.verify`
gives 401 `"Token inválido"` from the `catch`; a verified token whose
embedded id resolves to no user gives 404; on success the re-fetched
user is attached to the request. -/
def authMiddleware (header : Option AuthHeader) (key : Nat) (now : Nat)
    (users : List User) : AuthOutcome :=
  match header with
  | none => .thrown
  | some .emptyToken => .unauthorized "Autenticación requerida"
  | some (.withToken t) =>
    match jwtVerify key t now with
    | none => .unauthorized "Token inválido"
    | some payload =>
      match findUserById users payload.id with
      | none => .notFound "Usuario no encontrado"
      | some u => .ok u

/-- HTTP outcome of a route handler: a success status with a serialized
value, or an error status with a message. -/
inductive Outcome (α : Type) where
  | success (status : Nat) (v : α)
  | failure (status : Nat) (msg : String)
deriving Repr, DecidableEq

/-- `POST /users` (register) in the user router of `src/hashPassword.js`
(lines 57-72).  `bcrypt.hash(password, 10)` throws when `password` is
absent; `newUser.save()` fails when `username` is absent or empty
(`required`) or already taken (`unique`); every failure lands in the
shared `catch` with 400 `"Error al registrar el usuario"`.  On success
the stored password is the bcrypt hash of the request plaintext, and a
token `{ id: newUser._id }` is signed with one-hour expiry. -/
def register (users : List User) (username password : Option String)
    (freshId salt key now : Nat) : Outcome Jwt × List User :=
  match password with
  | none => (.failure 400 "Error al registrar el usuario", users)
  | some p =>
    match username with
    | none => (.failure 400 "Error al registrar el usuario", users)
    | some u =>
      if u == "" then (.failure 400 "Error al registrar el usuario", users)
      else if users.any (fun x => x.username == u) then
        (.failure 400 "Error al registrar el usuario", users)
      else
        (.success 201 (jwtSign key { id := freshId, username := none } now),
         users ++ [{ id := freshId, username := u, password := bcryptHash salt p }])

/-- `login` (`src/controllers/authController.js` lines 5-27).  `!username`
and `!password` are true for an absent field and for the empty string;
then `User.findOne({ username })`, `bcrypt.compare`, and on success a
token `{ id, username }` signed with one-hour expiry.  A missing user and
a failed comparison produce the same 400 `"Invalid credentials"`. -/
def login (users : List User) (username password : Option String)
    (key now : Nat) : Outcome Jwt :=
  match username, password with
  | some u, some p =>
    if u == "" ∨ p == "" then .failure 400 "Username and password are required"
    else
      match users.find? (fun x => x.username == u) with
      | none => .failure 400 "Invalid credentials"
      | some w =>
        if bcryptCompare p w.password then
          .success 200 (jwtSign key { id := w.id, username := some w.username } now)
        else .failure 400 "Invalid credentials"
  | _, _ => .failure 400 "Username and password are required"

/-- `POST /change-password` in the user router of `src/hashPassword.js`
(lines 101-115).  `req.user` is the user attached by `authMiddleware`.
`bcrypt.compare(oldPassword, user.password)` throws on an absent
`oldPassword` (caught as 400); a failed comparison gives 400
`"Contraseña actual incorrecta"`; `bcrypt.hash(newPassword, 10)` throws
on an absent `newPassword` (caught as 400); otherwise the stored hash is
overwritten with a newly salted hash of the new plaintext and the
document is saved. -/
def changePassword (users : List User) (actor : User)
    (oldPassword newPassword : Option String) (salt : Nat) :
    Outcome String × List User :=
  match oldPassword with
  | none => (.failure 400 "Error al cambiar la contraseña", users)
  | some op =>
    if bcryptCompare op actor.password then
      match newPassword with
      | none => (.failure 400 "Error al cambiar la contraseña", users)
      | some np =>
        (.success 200 "Contraseña cambiada exitosamente",
         users.map (fun w =>
           if w.id == actor.id then { w with password := bcryptHash salt np } else w))
    else (.failure 400 "Contraseña actual incorrecta", users)

/-- `POST /reset-password` in the user router of `src/hashPassword.js`
(lines 144-161).  Looks up by username only; 404 when absent;
`bcrypt.hash(newPassword, salt)` throws on an absent `newPassword`
(caught as 400); otherwise overwrites the stored hash with a newly
salted hash of the new plaintext. -/
def resetPassword (users : List User) (username : String)
    (newPassword : Option String) (salt : Nat) : Outcome String × List User :=
  match users.find? (fun x => x.username == username) with
  | none => (.failure 404 "Usuario no encontrado", users)
  | some w =>
    match newPassword with
    | none => (.failure 400 "Error al restablecer la contraseña", users)
    | some np =>
      (.success 200 "Contraseña restablecida exitosamente",
       users.map (fun x =>
         if x.id == w.id then { x with password := bcryptHash salt np } else x))

/-- A password field value is a bcrypt hash output (not a raw plaintext). -/
def isHashed : PwValue → Bool
  | .hashv _ _ => true
  | .plainv _ => false

/-- The document store's state as seen by the Habitat Graph handlers: the
animals collection and the zoos collection. -/
structure HabState where
  animals : List Animal
  zoos : List Zoo
deriving Repr, DecidableEq

/-- `Animal.findById(i)` over the animals collection. -/
def findAnimalById (animals : List Animal) (i : Nat) : Option Animal :=
  animals.find? (fun a => a.id == i)

/-- `Zoo.findById(i)` where `i` may be `undefined` (an absent request field
or an animal with no zoo reference): `findById(undefined)` resolves to no
document. -/
def findZooById (zoos : List Zoo) (i : Option Nat) : Option Zoo :=
  match i with
  | none => none
  | some n => zoos.find? (fun z => z.id == n)

/-- `zoo.save()` on a document fetched from the store: persists the
modified document under its primary key `_id`. -/
def saveZoo (zoos : List Zoo) (z : Zoo) : List Zoo :=
  zoos.map (fun w => if w.id == z.id then z else w)

/-- `router.post('/')` of `src/routes/animalRoutes.js` (lines 101-124), the
create-animal handler mounted at `POST /api/animals` by `src/app.js`.
First resolves the supplied zoo id (404 when it does not resolve), then
builds the animal with `zoo: foundZoo._id` and saves it (`required`
validation of `name`/`species` fails into the `catch` as 400).  The
handler never writes to the zoo's `animals` collection. -/
def routeCreateAnimal (st : HabState) (nm sp : String) (zid : Option Nat)
    (freshId : Nat) : Outcome Animal × HabState :=
  match findZooById st.zoos zid with
  | none => (.failure 404 "Zoológico no encontrado", st)
  | some z =>
    if nm == "" ∨ sp == "" then (.failure 400 "Error al crear el animal", st)
    else
      let a : Animal := { id := freshId, name := nm, species := sp, zoo := some z.id }
      (.success 201 a, { st with animals := st.animals ++ [a] })

/-- `createAnimal` (`src/controllers/animalController.js` lines 28-48), the
controller variant (not mounted by `src/app.js`).  The animal is built
with `zoo: req.body.zoo` and saved first (`required` validation of
`name`/`species` fails into the `catch` as 400, with mongoose's
validation message); only then is the zoo resolved — 404 when it does
not resolve, with the animal already persisted; on success the new id is
pushed onto the zoo's `animals` collection and the zoo is saved. -/
def createAnimal (st : HabState) (nm sp : String) (zid : Option Nat)
    (freshId : Nat) : Outcome Animal × HabState :=
  if nm == "" ∨ sp == "" then (.failure 400 "Animal validation failed", st)
  else
    let a : Animal := { id := freshId, name := nm, species := sp, zoo := zid }
    let st1 : HabState := { st with animals := st.animals ++ [a] }
    match findZooById st1.zoos zid with
    | none => (.failure 404 "Zoológico no encontrado", st1)
    | some z =>
      (.success 201 a,
       { st1 with zoos := saveZoo st1.zoos { z with animals := z.animals ++ [freshId] } })

/-- `router.put('/:id')` of `src/routes/animalRoutes.js` (lines 238-256),
the update-animal handler mounted at `PUT /api/animals/:id`.  First
resolves the zoo id from the body (404 `"zoologico no encontrado"` when
it does not resolve), then `findByIdAndUpdate` with
`{name, species, zoo: foundZoo._id}` (404 when the animal does not
resolve; no validators run on `findByIdAndUpdate`).  The handler never
writes to any zoo's `animals` collection. -/
def routeUpdateAnimal (st : HabState) (aid : Nat) (nm sp : String)
    (zid : Option Nat) : Outcome Animal × HabState :=
  match findZooById st.zoos zid with
  | none => (.failure 404 "zoologico no encontrado", st)
  | some z =>
    match findAnimalById st.animals aid with
    | none => (.failure 404 "Animal no encontrado", st)
    | some a =>
      let a2 : Animal := { a with name := nm, species := sp, zoo := some z.id }
      (.success 200 a2,
       { st with animals := st.animals.map (fun x => if x.id == aid then a2 else x) })

/-- `router.delete('/:id')` of `src/routes/animalRoutes.js` (lines
282-301), the delete-animal handler mounted at `DELETE /api/animals/:id`.
404 when the animal does not resolve; then the zoo referenced by the
animal is resolved and a missing zoo (including an animal with no zoo
reference) gives 404 `"Zoológico no encontrado"` with nothing deleted;
otherwise `findByIdAndDelete` removes the animal.  The handler never
writes to the zoo's `animals` collection. -/
def routeDeleteAnimal (st : HabState) (aid : Nat) : Outcome String × HabState :=
  match findAnimalById st.animals aid with
  | none => (.failure 404 "Animal no encontrado", st)
  | some a =>
    match findZooById st.zoos a.zoo with
    | none => (.failure 404 "Zoológico no encontrado", st)
    | some _ =>
      (.success 200 "Animal eliminado exitosamente",
       { st with animals := st.animals.filter (fun x => !(x.id == aid)) })

/-- `deleteAnimal` (`src/controllers/animalController.js` lines 64-83), the
controller variant (not mounted by `src/app.js`).  404 when the animal
does not resolve; if the referenced zoo resolves, the animal's id is
filtered out of the zoo's `animals` collection and the zoo saved (a
missing zoo is tolerated); then `findByIdAndDelete` removes the
animal. -/
def deleteAnimal (st : HabState) (aid : Nat) : Outcome String × HabState :=
  match findAnimalById st.animals aid with
  | none => (.failure 404 "Animal no encontrado", st)
  | some a =>
    let zoos2 :=
      match findZooById st.zoos a.zoo with
      | none => st.zoos
      | some z => saveZoo st.zoos { z with animals := z.animals.filter (fun i => !(i == a.id)) }
    (.success 200 "Animal eliminado",
     { animals := st.animals.filter (fun x => !(x.id == aid)), zoos := zoos2 })

/-- `Animal.find({ '_id': { $in: ids } })`: the animals whose id occurs in
the requested list, in collection order. -/
def resolvedAnimals (st : HabState) (ids : List Nat) : List Animal :=
  st.animals.filter (fun a => ids.contains a.id)

/-- `router.post('/')` of `src/unnamed/part_001` (lines 51-75), the
create-zoo handler mounted at `POST /api/zoos` by `src/app.js`.  When the
body has no `animals` field, `animals` is `undefined`: the
`$in: undefined` query / the `undefined.length` access throws, the
`catch` answers 400 `"Error al crear el zoológico"`, and nothing is
created.  When a list is supplied, the resolved documents are counted
against the requested list; a differing count gives 400
`"Uno o más animales no existen en la base de datos"` and creates
nothing; otherwise a zoo whose `animals` collection is exactly the
resolved ids is built and saved (`required` validation of
`name`/`location` fails into the `catch` as 400). -/
def routeCreateZoo (st : HabState) (nm loc : String)
    (animalIds : Option (List Nat)) (freshId : Nat) : Outcome Zoo × HabState :=
  match animalIds with
  | none => (.failure 400 "Error al crear el zoológico", st)
  | some ids =>
    let found := resolvedAnimals st ids
    if found.length ≠ ids.length then
      (.failure 400 "Uno o más animales no existen en la base de datos", st)
    else if nm == "" ∨ loc == "" then (.failure 400 "Error al crear el zoológico", st)
    else
      let z : Zoo := { id := freshId, name := nm, location := loc,
                       animals := found.map (fun a => a.id) }
      (.success 201 z, { st with zoos := st.zoos ++ [z] })

/-- `router.get('/zoo/:zooId')` of `src/routes/animalRoutes.js` (lines
156-166), mounted at `GET /api/animals/zoo/:zooId`.  Finds the animals
whose `zoo` field equals the path parameter; an empty result answers
404 `"No se encontraron animales para este zoológico"` — the zoos
collection itself is never consulted. -/
def routeGetAnimalsByZoo (st : HabState) (zid : Nat) : Outcome (List Animal) :=
  let found := st.animals.filter (fun a => a.zoo == some zid)
  if found.length == 0 then
    .failure 404 "No se encontraron animales para este zoológico"
  else .success 200 found

/-! ### Shared helper lemmas -/

/-- Searching an appended collection when the first part has no match. -/
theorem find?_append_of_none {α : Type} (p : α → Bool) (l1 l2 : List α)
    (h : l1.find? p = none) : (l1 ++ l2).find? p = l2.find? p := by
  rw [List.find?_append, h, Option.none_or]

/-- After `saveZoo` persists a modified document `z2` carrying the same
primary key as the document `z` that a lookup for key `n` returned, the
same lookup returns `z2`. -/
theorem find?_saveZoo (zoos : List Zoo) (n : Nat) (z z2 : Zoo)
    (h : zoos.find? (fun w => w.id == n) = some z) (hid : z2.id = z.id) :
    (saveZoo zoos z2).find? (fun w => w.id == n) = some z2 := by
  have hzn : z.id = n := by
    have := List.find?_some h
    simpa using this
  induction zoos with
  | nil => simp at h
  | cons a as ih =>
    by_cases ha : a.id = n
    · have hz : z = a := by
        rw [List.find?_cons_of_pos] at h
        · exact (Option.some_inj.mp h).symm
        · simp [ha]
      have hcons : saveZoo (a :: as) z2 = z2 :: saveZoo as z2 := by
        have heq : a.id = z2.id := by simp [hid, hz, ha, hzn]
        simp [saveZoo, heq]
      rw [hcons]
      exact List.find?_cons_of_pos _ (by simp [hid, hz, ha, hzn])
    · have h' : as.find? (fun w => w.id == n) = some z := by
        rw [List.find?_cons_of_neg] at h
        · exact h
        · simp [ha]
      have hcons : saveZoo (a :: as) z2 = a :: saveZoo as z2 := by
        have hne : a.id ≠ z2.id := by
          rw [hid, hzn]
          exact ha
        simp [saveZoo, hne]
      rw [hcons, List.find?_cons_of_neg _ (by simp [ha])]
      exact ih h'

/-- A lookup by primary key finds nothing in a collection from which every
document with that key was filtered out. -/
theorem find?_filter_ne_id (animals : List Animal) (aid : Nat) :
    (animals.filter (fun x => !(x.id == aid))).find? (fun a => a.id == aid) = none := by
  rw [List.find?_eq_none]
  intro x hx
  have := (List.mem_filter.mp hx).2
  simpa using this

/-- Filtering an id out of a list leaves no occurrence of it. -/
theorem count_filter_ne (l : List Nat) (n : Nat) :
    (l.filter (fun i => !(i == n))).count n = 0 := by
  rw [List.count_eq_zero]
  intro hmem
  have := (List.mem_filter.mp hmem).2
  simp at this

/-! ### Claim C3 -/

/-- C3: the claim says a missing authorization header makes `Authorize`
fail with `AuthError`.  The code instead evaluates
`req.header('Authorization').replace('Bearer ', '')` before any check
and outside its `try` block, so on a request with no authorization
header a `TypeError` escapes the middleware and no 401 response is
produced: the embedded middleware yields the `thrown` outcome for every
key, clock and user store. -/
theorem authorize_missing_header_throws (key now : Nat) (users : List User) :
    authMiddleware none key now users = .thrown := rfl

/-! ### Claim C6 -/

/-- C6: a login with a nonexistent username and a login with an existing
username but a failing password comparison produce the same failure kind
and the same message — both are 400 `"Invalid credentials"` — so the
response does not distinguish the two cases. -/
theorem login_enumeration_resistance (users : List User)
    (u1 p1 u2 p2 : String) (key now : Nat) (w : User)
    (hu1 : u1 ≠ "") (hp1 : p1 ≠ "") (hu2 : u2 ≠ "") (hp2 : p2 ≠ "")
    (hmiss : users.find? (fun x => x.username == u1) = none)
    (hfound : users.find? (fun x => x.username == u2) = some w)
    (hwrong : bcryptCompare p2 w.password = false) :
    login users (some u1) (some p1) key now = .failure 400 "Invalid credentials" ∧
    login users (some u2) (some p2) key now = .failure 400 "Invalid credentials" ∧
    login users (some u1) (some p1) key now = login users (some u2) (some p2) key now := by
  have h1 : login users (some u1) (some p1) key now = .failure 400 "Invalid credentials" := by
    simp [login, hu1, hp1, hmiss]
  have h2 : login users (some u2) (some p2) key now = .failure 400 "Invalid credentials" := by
    simp [login, hu2, hp2, hfound, hwrong]
  exact ⟨h1, h2, h1.trans h2.symm⟩

/-- C6 witness: concrete store with one user `"ana"` whose stored password
is the bcrypt hash of `"pw"`; logging in as the unknown `"bob"` and as
`"ana"` with the wrong password `"nope"` yield identical responses. -/
theorem login_enumeration_resistance_witness :
    login [{ id := 1, username := "ana", password := bcryptHash 2 "pw" }]
        (some "bob") (some "x") 9 0 = .failure 400 "Invalid credentials" ∧
    login [{ id := 1, username := "ana", password := bcryptHash 2 "pw" }]
        (some "ana") (some "nope") 9 0 = .failure 400 "Invalid credentials" ∧
    login [{ id := 1, username := "ana", password := bcryptHash 2 "pw" }]
        (some "bob") (some "x") 9 0 =
      login [{ id := 1, username := "ana", password := bcryptHash 2 "pw" }]
        (some "ana") (some "nope") 9 0 :=
  login_enumeration_resistance
    [{ id := 1, username := "ana", password := bcryptHash 2 "pw" }]
    "bob" "x" "ana" "nope" 9 0
    { id := 1, username := "ana", password := bcryptHash 2 "pw" }
    (by decide) (by decide) (by decide) (by decide) rfl rfl rfl

/-! ### Claim C9 -/

/-- C9: the get-animals-by-zoo endpoint answers 404 whenever no animal's
zoo reference matches the path parameter, rather than an empty 200 list;
consequently an existing zoo that houses no animals produces exactly the
same response as an identifier that resolves to no zoo at all. -/
theorem get_animals_by_zoo_empty_is_404 (st : HabState) (zid miss : Nat) (z : Zoo)
    (_hz : findZooById st.zoos (some zid) = some z)
    (hempty : ∀ a ∈ st.animals, a.zoo ≠ some zid)
    (_hnozoo : findZooById st.zoos (some miss) = none)
    (hnoref : ∀ a ∈ st.animals, a.zoo ≠ some miss) :
    routeGetAnimalsByZoo st zid =
      .failure 404 "No se encontraron animales para este zoológico" ∧
    routeGetAnimalsByZoo st zid = routeGetAnimalsByZoo st miss := by
  have hf1 : st.animals.filter (fun a => a.zoo == some zid) = [] := by
    rw [List.filter_eq_nil_iff]
    intro a ha
    simpa using hempty a ha
  have hf2 : st.animals.filter (fun a => a.zoo == some miss) = [] := by
    rw [List.filter_eq_nil_iff]
    intro a ha
    simpa using hnoref a ha
  constructor
  · simp [routeGetAnimalsByZoo, hf1]
  · simp [routeGetAnimalsByZoo, hf1, hf2]

/-- C9 witness: a store holding zoo 1 with no inhabitants and one animal
housed in zoo 9; reading the animals of the existing-but-empty zoo 1 and
of the nonexistent zoo 5 both give the same 404. -/
theorem get_animals_by_zoo_empty_is_404_witness :
    routeGetAnimalsByZoo
        { animals := [{ id := 2, name := "Leo", species := "lion", zoo := some 9 }],
          zoos := [{ id := 1, name := "Z", location := "L", animals := [] }] } 1 =
      .failure 404 "No se encontraron animales para este zoológico" ∧
    routeGetAnimalsByZoo
        { animals := [{ id := 2, name := "Leo", species := "lion", zoo := some 9 }],
          zoos := [{ id := 1, name := "Z", location := "L", animals := [] }] } 1 =
      routeGetAnimalsByZoo
        { animals := [{ id := 2, name := "Leo", species := "lion", zoo := some 9 }],
          zoos := [{ id := 1, name := "Z", location := "L", animals := [] }] } 5 :=
  get_animals_by_zoo_empty_is_404
    { animals := [{ id := 2, name := "Leo", species := "lion", zoo := some 9 }],
      zoos := [{ id := 1, name := "Z", location := "L", animals := [] }] }
    1 5 { id := 1, name := "Z", location := "L", animals := [] }
    rfl (by decide) rfl (by decide)

/-! ### Claim C10 -/

/-- C10: a create-zoo request whose body omits the `animals` list entirely
fails with the 400 validation-class response of the handler's `catch`
(`$in: undefined` / `undefined.length` throws) and leaves the store
unchanged, so no zoo — in particular no zoo with an empty animal
collection — is ever created without an explicitly supplied list. -/
theorem create_zoo_requires_animal_list (st : HabState) (nm loc : String)
    (freshId : Nat) :
    routeCreateZoo st nm loc none freshId =
      (.failure 400 "Error al crear el zoológico", st) := rfl

/-! ### Claim C1 -/

/-- C1 counterexample: against the create-animal handler that `src/app.js`
actually mounts at `POST /api/animals`, the claim's final conjunct fails.
In a store holding zoo 1 with an empty collection, creating animal 2 in
zoo 1 succeeds (201, forward reference set) yet the post-state still
holds zoo 1 with the empty collection: the new identifier is contained
zero times, not exactly once. -/
theorem create_animal_route_counterexample :
    routeCreateAnimal
        { animals := [],
          zoos := [{ id := 1, name := "Z", location := "L", animals := [] }] }
        "Leo" "lion" (some 1) 2
      = (.success 201 { id := 2, name := "Leo", species := "lion", zoo := some 1 },
         { animals := [{ id := 2, name := "Leo", species := "lion", zoo := some 1 }],
           zoos := [{ id := 1, name := "Z", location := "L", animals := [] }] }) ∧
    findZooById
        (routeCreateAnimal
          { animals := [],
            zoos := [{ id := 1, name := "Z", location := "L", animals := [] }] }
          "Leo" "lion" (some 1) 2).2.zoos (some 1)
      = some { id := 1, name := "Z", location := "L", animals := [] } ∧
    (Zoo.animals { id := 1, name := "Z", location := "L", animals := [] }).count 2 = 0 := by
  refine ⟨rfl, rfl, rfl⟩

/-- C1 amended: for a create-animal request with a supplied zoo identifier,
an unresolved identifier fails with 404 in both implementations, and on
success the animal is persisted with its zoo reference equal to the
supplied identifier; but the mounted route handler leaves every zoo
collection unchanged (no append), while only the unmounted controller
`createAnimal` appends the new identifier to the zoo's collection so that
it is contained exactly once. -/
theorem create_animal_amended (st : HabState) (nm sp : String) (zid freshId : Nat)
    (hnm : nm ≠ "") (hsp : sp ≠ "")
    (hfresh : ∀ z ∈ st.zoos, z.animals.count freshId = 0) :
    (findZooById st.zoos (some zid) = none →
      routeCreateAnimal st nm sp (some zid) freshId
          = (.failure 404 "Zoológico no encontrado", st) ∧
      (createAnimal st nm sp (some zid) freshId).1
          = .failure 404 "Zoológico no encontrado") ∧
    (∀ z, findZooById st.zoos (some zid) = some z →
      z.id = zid ∧
      routeCreateAnimal st nm sp (some zid) freshId
          = (.success 201 { id := freshId, name := nm, species := sp, zoo := some zid },
             { st with animals :=
                 st.animals ++ [{ id := freshId, name := nm, species := sp, zoo := some zid }] }) ∧
      (createAnimal st nm sp (some zid) freshId).1
          = .success 201 { id := freshId, name := nm, species := sp, zoo := some zid } ∧
      (createAnimal st nm sp (some zid) freshId).2.animals
          = st.animals ++ [{ id := freshId, name := nm, species := sp, zoo := some zid }] ∧
      findZooById (createAnimal st nm sp (some zid) freshId).2.zoos (some zid)
          = some { z with animals := z.animals ++ [freshId] } ∧
      (z.animals ++ [freshId]).count freshId = 1) := by
  constructor
  · intro hnone
    constructor
    · simp [routeCreateAnimal, hnone]
    · simp [createAnimal, hnm, hsp, hnone]
  · intro z hz
    have hfind : st.zoos.find? (fun w => w.id == zid) = some z := by
      simpa [findZooById] using hz
    have hzid : z.id = zid := by
      have := List.find?_some hfind
      simpa using this
    have hmem : z ∈ st.zoos := List.mem_of_find?_eq_some hfind
    have hcount : z.animals.count freshId = 0 := hfresh z hmem
    refine ⟨hzid, ?_, ?_, ?_, ?_, ?_⟩
    · simp [routeCreateAnimal, hz, hnm, hsp, hzid]
    · simp [createAnimal, hnm, hsp, hz]
    · simp [createAnimal, hnm, hsp, hz]
    · have hsave := find?_saveZoo st.zoos zid z { z with animals := z.animals ++ [freshId] }
        hfind rfl
      simpa [createAnimal, hnm, hsp, hfind, findZooById] using hsave
    · simp [List.count_append, hcount]

/-- C1 amended witness: in a store holding only the empty zoo 1, creating
animal 2 in zoo 1 through the mounted route leaves zoo 1 empty, while the
controller variant leaves zoo 1 holding exactly `[2]`. -/
theorem create_animal_amended_witness :
    routeCreateAnimal
        { animals := [],
          zoos := [{ id := 1, name := "Z", location := "L", animals := [] }] }
        "Leo" "lion" (some 1) 2
      = (.success 201 { id := 2, name := "Leo", species := "lion", zoo := some 1 },
         { animals := [{ id := 2, name := "Leo", species := "lion", zoo := some 1 }],
           zoos := [{ id := 1, name := "Z", location := "L", animals := [] }] }) ∧
    findZooById
        (createAnimal
          { animals := [],
            zoos := [{ id := 1, name := "Z", location := "L", animals := [] }] }
          "Leo" "lion" (some 1) 2).2.zoos (some 1)
      = some { id := 1, name := "Z", location := "L", animals := [2] } := by
  have h := (create_animal_amended
      { animals := [],
        zoos := [{ id := 1, name := "Z", location := "L", animals := [] }] }
      "Leo" "lion" 1 2 (by decide) (by decide) (by decide)).2
      { id := 1, name := "Z", location := "L", animals := [] } rfl
  exact ⟨h.2.1, h.2.2.2.2.1⟩

/-! ### Claim C2 -/

/-- C2 counterexample: against the delete-animal handler that `src/app.js`
actually mounts at `DELETE /api/animals/:id`, the claim fails.  In a
store holding animal 2 housed in zoo 1 (whose collection is `[2]`),
deleting animal 2 succeeds and removes the animal record, yet zoo 1's
collection still holds the identifier 2 afterwards: a subsequent fetch of
the zoo shows it present, not absent. -/
theorem delete_animal_route_counterexample :
    routeDeleteAnimal
        { animals := [{ id := 2, name := "Leo", species := "lion", zoo := some 1 }],
          zoos := [{ id := 1, name := "Z", location := "L", animals := [2] }] } 2
      = (.success 200 "Animal eliminado exitosamente",
         { animals := [],
           zoos := [{ id := 1, name := "Z", location := "L", animals := [2] }] }) ∧
    findZooById
        (routeDeleteAnimal
          { animals := [{ id := 2, name := "Leo", species := "lion", zoo := some 1 }],
            zoos := [{ id := 1, name := "Z", location := "L", animals := [2] }] } 2).2.zoos
        (some 1)
      = some { id := 1, name := "Z", location := "L", animals := [2] } := by
  refine ⟨rfl, rfl⟩

/-- C2 amended: a missing animal fails with 404 in both implementations.
For an animal that exists and carries a zoo reference, the mounted route
handler fails with 404 when the referenced zoo does not resolve (deleting
nothing, instead of tolerating it) and on success deletes the animal
record while leaving every zoo collection unchanged; only the unmounted
controller `deleteAnimal` behaves as claimed — it tolerates a missing
zoo, filters the identifier out of the zoo's collection and removes the
animal record, so the identifier is afterwards absent from both. -/
theorem delete_animal_amended (st : HabState) (aid : Nat) :
    (findAnimalById st.animals aid = none →
      routeDeleteAnimal st aid = (.failure 404 "Animal no encontrado", st) ∧
      deleteAnimal st aid = (.failure 404 "Animal no encontrado", st)) ∧
    (∀ a, findAnimalById st.animals aid = some a →
      a.id = aid ∧
      (findZooById st.zoos a.zoo = none →
        routeDeleteAnimal st aid = (.failure 404 "Zoológico no encontrado", st) ∧
        deleteAnimal st aid
          = (.success 200 "Animal eliminado",
             { animals := st.animals.filter (fun x => !(x.id == aid)),
               zoos := st.zoos })) ∧
      (∀ z, findZooById st.zoos a.zoo = some z →
        routeDeleteAnimal st aid
          = (.success 200 "Animal eliminado exitosamente",
             { st with animals := st.animals.filter (fun x => !(x.id == aid)) }) ∧
        (deleteAnimal st aid).1 = .success 200 "Animal eliminado" ∧
        findAnimalById (deleteAnimal st aid).2.animals aid = none ∧
        findZooById (deleteAnimal st aid).2.zoos a.zoo
          = some { z with animals := z.animals.filter (fun i => !(i == a.id)) } ∧
        (z.animals.filter (fun i => !(i == a.id))).count a.id = 0)) := by
  constructor
  · intro hnone
    constructor
    · simp [routeDeleteAnimal, hnone]
    · simp [deleteAnimal, hnone]
  · intro a ha
    have hfind : st.animals.find? (fun x => x.id == aid) = some a := by
      simpa [findAnimalById] using ha
    have haid : a.id = aid := by
      have := List.find?_some hfind
      simpa using this
    refine ⟨haid, ?_, ?_⟩
    · intro hznone
      constructor
      · simp [routeDeleteAnimal, ha, hznone]
      · simp [deleteAnimal, ha, hznone]
    · intro z hzfound
      obtain ⟨n, hn⟩ : ∃ n, a.zoo = some n := by
        cases hzoo : a.zoo with
        | none => rw [hzoo] at hzfound; simp [findZooById] at hzfound
        | some n => exact ⟨n, rfl⟩
      have hzfind : st.zoos.find? (fun w => w.id == n) = some z := by
        rw [hn] at hzfound
        simpa [findZooById] using hzfound
      refine ⟨?_, ?_, ?_, ?_, ?_⟩
      · simp [routeDeleteAnimal, ha, hzfound]
      · simp [deleteAnimal, ha, hzfound]
      · simp [deleteAnimal, hfind, hzfound, findAnimalById, find?_filter_ne_id]
      · have hsave := find?_saveZoo st.zoos n z
          { z with animals := z.animals.filter (fun i => !(i == a.id)) } hzfind rfl
        simpa [deleteAnimal, hfind, findAnimalById, findZooById, hn, hzfind] using hsave
      · exact count_filter_ne z.animals a.id

/-- C2 amended witness: deleting animal 2 (housed in zoo 1, collection
`[2]`) through the mounted route succeeds yet leaves `[2]` in zoo 1,
while the controller variant removes the identifier from zoo 1's
collection and the animal record. -/
theorem delete_animal_amended_witness :
    routeDeleteAnimal
        { animals := [{ id := 2, name := "Leo", species := "lion", zoo := some 1 }],
          zoos := [{ id := 1, name := "Z", location := "L", animals := [2] }] } 2
      = (.success 200 "Animal eliminado exitosamente",
         { animals := [],
           zoos := [{ id := 1, name := "Z", location := "L", animals := [2] }] }) ∧
    (deleteAnimal
        { animals := [{ id := 2, name := "Leo", species := "lion", zoo := some 1 }],
          zoos := [{ id := 1, name := "Z", location := "L", animals := [2] }] } 2).1
      = .success 200 "Animal eliminado" ∧
    findAnimalById
        (deleteAnimal
          { animals := [{ id := 2, name := "Leo", species := "lion", zoo := some 1 }],
            zoos := [{ id := 1, name := "Z", location := "L", animals := [2] }] } 2).2.animals 2
      = none ∧
    findZooById
        (deleteAnimal
          { animals := [{ id := 2, name := "Leo", species := "lion", zoo := some 1 }],
            zoos := [{ id := 1, name := "Z", location := "L", animals := [2] }] } 2).2.zoos
        (some 1)
      = some { id := 1, name := "Z", location := "L", animals := [] } := by
  have h := (delete_animal_amended
      { animals := [{ id := 2, name := "Leo", species := "lion", zoo := some 1 }],
        zoos := [{ id := 1, name := "Z", location := "L", animals := [2] }] } 2).2
      { id := 2, name := "Leo", species := "lion", zoo := some 1 } rfl
  have h2 := h.2.2 { id := 1, name := "Z", location := "L", animals := [2] } rfl
  exact ⟨h2.1, h2.2.1, h2.2.2.1, h2.2.2.2.1⟩

/-! ### Claim C4 -/

/-- C4: evaluation of the mounted update-animal handler at the failing
input.  Animal 2 is housed in zoo 1 (collection `[2]`), zoo 3 exists
with an empty collection; updating animal 2 with zoo 3 resolves the
target zoo and succeeds, changing the animal's forward reference to 3 —
but both zoo collections are returned unchanged: nothing is appended to
zoo 3's collection (and 2 stays in zoo 1's), so the bidirectional
invariant is broken although the claim (and the spec's §4.2) require the
append.  (The unmounted controller `updateAnimal` is a bare
`findByIdAndUpdate` that performs neither the resolution nor the
append.) -/
theorem update_animal_leaves_collections_unchanged :
    routeUpdateAnimal
        { animals := [{ id := 2, name := "Leo", species := "lion", zoo := some 1 }],
          zoos := [{ id := 1, name := "Z1", location := "L1", animals := [2] },
                   { id := 3, name := "Z3", location := "L3", animals := [] }] }
        2 "Leo" "lion" (some 3)
      = (.success 200 { id := 2, name := "Leo", species := "lion", zoo := some 3 },
         { animals := [{ id := 2, name := "Leo", species := "lion", zoo := some 3 }],
           zoos := [{ id := 1, name := "Z1", location := "L1", animals := [2] },
                    { id := 3, name := "Z3", location := "L3", animals := [] }] }) := by
  rfl

/-! ### Claim C5 -/

/-- C5 counterexample: the claim's "otherwise" branch is stated as "every
identifier resolves"; the code's operative test is the count comparison,
and the two part ways on a duplicated list.  With the store holding
animal 5, the request list `[5, 5]` consists only of identifiers that
resolve, yet the handler answers 400
`"Uno o más animales no existen en la base de datos"` and creates
nothing (one resolved document against two requested entries). -/
theorem create_zoo_duplicates_counterexample :
    ([5, 5].all (fun i =>
        (findAnimalById [{ id := 5, name := "Leo", species := "lion", zoo := none }] i).isSome))
      = true ∧
    routeCreateZoo
        { animals := [{ id := 5, name := "Leo", species := "lion", zoo := none }], zoos := [] }
        "City Zoo" "Springfield" (some [5, 5]) 9
      = (.failure 400 "Uno o más animales no existen en la base de datos",
         { animals := [{ id := 5, name := "Leo", species := "lion", zoo := none }],
           zoos := [] }) := by
  refine ⟨rfl, by decide⟩

/-- C5 amended: the create-zoo handler fails with the 400 validation
response and creates nothing whenever the count of resolved animal
documents differs from the length of the requested list — which happens
in particular whenever some requested identifier resolves to no animal,
but also when the list repeats identifiers that all resolve; when the
counts agree, a new zoo is persisted whose animal collection is exactly
the resolved identifier list. -/
theorem create_zoo_amended (st : HabState) (nm loc : String) (ids : List Nat)
    (freshId : Nat) (hnm : nm ≠ "") (hloc : loc ≠ "")
    (hnodup : (st.animals.map (fun a => a.id)).Nodup) :
    ((resolvedAnimals st ids).length ≠ ids.length →
      routeCreateZoo st nm loc (some ids) freshId
        = (.failure 400 "Uno o más animales no existen en la base de datos", st)) ∧
    ((resolvedAnimals st ids).length = ids.length →
      routeCreateZoo st nm loc (some ids) freshId
        = (.success 201
             { id := freshId, name := nm, location := loc,
               animals := (resolvedAnimals st ids).map (fun a => a.id) },
           { st with zoos := st.zoos ++
               [{ id := freshId, name := nm, location := loc,
                  animals := (resolvedAnimals st ids).map (fun a => a.id) }] })) ∧
    (∀ i ∈ ids, findAnimalById st.animals i = none →
      (resolvedAnimals st ids).length ≠ ids.length) := by
  refine ⟨?_, ?_, ?_⟩
  · intro h
    simp [routeCreateZoo, h]
  · intro h
    simp [routeCreateZoo, h, hnm, hloc]
  · intro i hi hmiss
    have hforall : ∀ a ∈ st.animals, a.id ≠ i := by
      intro a ha
      have hm : st.animals.find? (fun x => x.id == i) = none := by
        simpa [findAnimalById] using hmiss
      have := List.find?_eq_none.mp hm a ha
      simpa using this
    have hsubl : List.Sublist (resolvedAnimals st ids) st.animals := List.filter_sublist _
    have hnodupR : ((resolvedAnimals st ids).map (fun a => a.id)).Nodup :=
      List.Nodup.sublist (hsubl.map _) hnodup
    have hsub : ((resolvedAnimals st ids).map (fun a => a.id)) ⊆
        ids.dedup.filter (fun x => x ≠ i) := by
      intro x hx
      obtain ⟨a, haR, rfl⟩ := List.mem_map.mp hx
      have hmem := List.mem_filter.mp haR
      have hxin : a.id ∈ ids := by
        have := hmem.2
        simpa [List.elem_iff] using this
      refine List.mem_filter.mpr ⟨List.mem_dedup.mpr hxin, ?_⟩
      simp [hforall a hmem.1]
    have hle1 : ((resolvedAnimals st ids).map (fun a => a.id)).length ≤
        (ids.dedup.filter (fun x => x ≠ i)).length :=
      (List.subperm_of_subset hnodupR hsub).length_le
    have hlt : (ids.dedup.filter (fun x => x ≠ i)).length < ids.dedup.length := by
      rcases Nat.lt_or_ge (ids.dedup.filter (fun x => x ≠ i)).length ids.dedup.length with h | h
      · exact h
      · exfalso
        have heq : (ids.dedup.filter (fun x => x ≠ i)).length = ids.dedup.length :=
          Nat.le_antisymm (List.length_filter_le _ _) h
        have hallmem := List.filter_length_eq_length.mp heq i (List.mem_dedup.mpr hi)
        simp at hallmem
    have hle2 : ids.dedup.length ≤ ids.length := (List.dedup_sublist ids).length_le
    have hmap : ((resolvedAnimals st ids).map (fun a => a.id)).length =
        (resolvedAnimals st ids).length := List.length_map _ _
    omega

/-- C5 amended witness: with the store holding animal 5 only, requesting
`[5]` creates a zoo whose collection is exactly `[5]`, while requesting
the unresolved `[7]` makes the counts differ. -/
theorem create_zoo_amended_witness :
    routeCreateZoo
        { animals := [{ id := 5, name := "Leo", species := "lion", zoo := none }], zoos := [] }
        "City Zoo" "Springfield" (some [5]) 9
      = (.success 201 { id := 9, name := "City Zoo", location := "Springfield", animals := [5] },
         { animals := [{ id := 5, name := "Leo", species := "lion", zoo := none }],
           zoos := [{ id := 9, name := "City Zoo", location := "Springfield", animals := [5] }] }) ∧
    (resolvedAnimals
        { animals := [{ id := 5, name := "Leo", species := "lion", zoo := none }], zoos := [] }
        [7]).length ≠ [7].length := by
  constructor
  · have h := (create_zoo_amended
        { animals := [{ id := 5, name := "Leo", species := "lion", zoo := none }], zoos := [] }
        "City Zoo" "Springfield" [5] 9 (by decide) (by decide) (by decide)).2.1 (by decide)
    exact h
  · exact (create_zoo_amended
        { animals := [{ id := 5, name := "Leo", species := "lion", zoo := none }], zoos := [] }
        "City Zoo" "Springfield" [7] 9 (by decide) (by decide) (by decide)).2.2 7 (by decide) rfl

/-! ### Claim C7 -/

/-- C7: registering a valid (username, password) pair and then logging in
with the same pair succeeds; the login token's embedded identifier is the
registered user's identifier, and `Authorize` on that token (within its
validity window) resolves it to the registered user record.  The stored
credential is the bcrypt hash output of the registration plaintext (a
hash value, never the plaintext itself), and the login-time comparison
accepts precisely because `bcryptCompare` re-derives the digest from the
stored salt — the embedding's `bcryptCompare` is digest comparison and
returns `false` on any plaintext-stored value arrangement. -/
theorem register_login_authorize (users : List User) (un pw : String)
    (freshId salt key t0 t1 t2 : Nat)
    (hun : un ≠ "") (hpw : pw ≠ "")
    (hfresh : users.find? (fun x => x.username == un) = none)
    (hid : ∀ u ∈ users, u.id ≠ freshId)
    (hexp : t2 < t1 + 3600) :
    register users (some un) (some pw) freshId salt key t0
      = (.success 201 (jwtSign key { id := freshId, username := none } t0),
         users ++ [{ id := freshId, username := un, password := bcryptHash salt pw }]) ∧
    login (users ++ [{ id := freshId, username := un, password := bcryptHash salt pw }])
        (some un) (some pw) key t1
      = .success 200 (jwtSign key { id := freshId, username := some un } t1) ∧
    (jwtSign key { id := freshId, username := some un } t1).payload.id = freshId ∧
    authMiddleware
        (some (.withToken (.signed (jwtSign key { id := freshId, username := some un } t1))))
        key t2 (users ++ [{ id := freshId, username := un, password := bcryptHash salt pw }])
      = .ok { id := freshId, username := un, password := bcryptHash salt pw } ∧
    isHashed (bcryptHash salt pw) = true := by
  have hany : (users.any (fun x => x.username == un)) = false := by
    rw [List.any_eq_false]
    intro x hx
    exact List.find?_eq_none.mp hfresh x hx
  have hnone : users.find? (fun u => u.id == freshId) = none := by
    rw [List.find?_eq_none]
    intro x hx
    simpa using hid x hx
  refine ⟨?_, ?_, rfl, ?_, rfl⟩
  · simp [register, hun, hany]
  · simp [login, hun, hpw, hfresh, bcryptCompare, bcryptHash]
  · simp [authMiddleware, jwtVerify, jwtSign, hexp, findUserById, hnone]

/-- C7 witness: registering `"juan123"`/`"pw1"` into an empty store then
logging in yields a token for identifier 7, and `Authorize` at clock 20
(well inside the hour) attaches the registered record. -/
theorem register_login_authorize_witness :
    register [] (some "juan123") (some "pw1") 7 3 9 0
      = (.success 201 (jwtSign 9 { id := 7, username := none } 0),
         [{ id := 7, username := "juan123", password := bcryptHash 3 "pw1" }]) ∧
    login [{ id := 7, username := "juan123", password := bcryptHash 3 "pw1" }]
        (some "juan123") (some "pw1") 9 10
      = .success 200 (jwtSign 9 { id := 7, username := some "juan123" } 10) ∧
    authMiddleware
        (some (.withToken (.signed (jwtSign 9 { id := 7, username := some "juan123" } 10))))
        9 20 [{ id := 7, username := "juan123", password := bcryptHash 3 "pw1" }]
      = .ok { id := 7, username := "juan123", password := bcryptHash 3 "pw1" } := by
  have h := register_login_authorize [] "juan123" "pw1" 7 3 9 0 10 20
    (by decide) (by decide) rfl (by simp) (by decide)
  exact ⟨h.1, h.2.1, h.2.2.2.1⟩

/-! ### Claim C8 -/

/-- C8: every operation that writes a user's password field — register,
change-password, reset-password — writes only the salted bcrypt hash of
the request's plaintext, never the raw request field itself, and each
preserves the invariant that every stored user record holds a hash
value, never a plaintext password. -/
theorem password_writes_always_hashed (users : List User) (actor : User)
    (un pw oldp np1 un2 np2 : String)
    (freshId salt1 salt2 salt3 key t0 : Nat)
    (hall : ∀ u ∈ users, isHashed u.password = true) :
    (∀ u ∈ (register users (some un) (some pw) freshId salt1 key t0).2,
        isHashed u.password = true) ∧
    (∀ u ∈ (register users (some un) (some pw) freshId salt1 key t0).2,
        u ∈ users ∨ u.password = bcryptHash salt1 pw) ∧
    (∀ u ∈ (changePassword users actor (some oldp) (some np1) salt2).2,
        isHashed u.password = true) ∧
    (∀ u ∈ (changePassword users actor (some oldp) (some np1) salt2).2,
        u ∈ users ∨ u.password = bcryptHash salt2 np1) ∧
    (∀ u ∈ (resetPassword users un2 (some np2) salt3).2,
        isHashed u.password = true) ∧
    (∀ u ∈ (resetPassword users un2 (some np2) salt3).2,
        u ∈ users ∨ u.password = bcryptHash salt3 np2) ∧
    (∀ s p, bcryptHash s p ≠ PwValue.plainv p) := by
  have hreg : (register users (some un) (some pw) freshId salt1 key t0).2 = users ∨
      (register users (some un) (some pw) freshId salt1 key t0).2
        = users ++ [{ id := freshId, username := un, password := bcryptHash salt1 pw }] := by
    by_cases h1 : (un == "") = true
    · left; simp [register, h1]
    · by_cases h2 : (users.any (fun x => x.username == un)) = true
      · left; simp [register, h1, h2]
      · right; simp [register, h1, h2]
  have hchg : (changePassword users actor (some oldp) (some np1) salt2).2 = users ∨
      (changePassword users actor (some oldp) (some np1) salt2).2
        = users.map (fun w =>
            if w.id == actor.id then { w with password := bcryptHash salt2 np1 } else w) := by
    by_cases h : bcryptCompare oldp actor.password = true
    · right; simp [changePassword, h]
    · left; simp [changePassword, h]
  have hres : (resetPassword users un2 (some np2) salt3).2 = users ∨
      ∃ w : User, (resetPassword users un2 (some np2) salt3).2
        = users.map (fun x =>
            if x.id == w.id then { x with password := bcryptHash salt3 np2 } else x) := by
    cases hfw : users.find? (fun x => x.username == un2) with
    | none => left; simp [resetPassword, hfw]
    | some w => right; exact ⟨w, by simp [resetPassword, hfw]⟩
  have hmapinv : ∀ (tid : Nat) (snew : Nat) (pnew : String),
      ∀ u ∈ users.map (fun x =>
          if x.id == tid then { x with password := bcryptHash snew pnew } else x),
        (isHashed u.password = true) ∧ (u ∈ users ∨ u.password = bcryptHash snew pnew) := by
    intro tid snew pnew u hu
    obtain ⟨w, hw, rfl⟩ := List.mem_map.mp hu
    by_cases hwid : (w.id == tid) = true
    · constructor
      · simp [hwid, isHashed, bcryptHash]
      · right
        simp [hwid]
    · constructor
      · simpa [hwid] using hall w hw
      · left
        simpa [hwid] using hw
  refine ⟨?_, ?_, ?_, ?_, ?_, ?_, ?_⟩
  · rcases hreg with h | h <;> rw [h]
    · exact hall
    · intro u hu
      rcases List.mem_append.mp hu with h1 | h1
      · exact hall u h1
      · have : u = { id := freshId, username := un, password := bcryptHash salt1 pw } := by
          simpa using h1
        rw [this]
        rfl
  · rcases hreg with h | h <;> rw [h]
    · intro u hu; exact Or.inl hu
    · intro u hu
      rcases List.mem_append.mp hu with h1 | h1
      · exact Or.inl h1
      · have : u = { id := freshId, username := un, password := bcryptHash salt1 pw } := by
          simpa using h1
        rw [this]
        exact Or.inr rfl
  · rcases hchg with h | h <;> rw [h]
    · exact hall
    · intro u hu; exact (hmapinv actor.id salt2 np1 u hu).1
  · rcases hchg with h | h <;> rw [h]
    · intro u hu; exact Or.inl hu
    · intro u hu; exact (hmapinv actor.id salt2 np1 u hu).2
  · rcases hres with h | ⟨w, h⟩ <;> rw [h]
    · exact hall
    · intro u hu; exact (hmapinv w.id salt3 np2 u hu).1
  · rcases hres with h | ⟨w, h⟩ <;> rw [h]
    · intro u hu; exact Or.inl hu
    · intro u hu; exact (hmapinv w.id salt3 np2 u hu).2
  · intro s p
    intro hcontra
    exact PwValue.noConfusion hcontra

/-- C8 witness: after resetting `"ana"`'s password to `"new"` with salt 4,
the record present in the store holds `bcryptHash 4 "new"` — a hash
value, not the raw plaintext. -/
theorem password_writes_always_hashed_witness :
    isHashed ({ id := 1, username := "ana", password := bcryptHash 4 "new" } : User).password
      = true ∧
    ({ id := 1, username := "ana", password := bcryptHash 4 "new" } : User)
      ∈ (resetPassword [{ id := 1, username := "ana", password := bcryptHash 2 "pw" }]
          "ana" (some "new") 4).2 := by
  have h := password_writes_always_hashed
      [{ id := 1, username := "ana", password := bcryptHash 2 "pw" }]
      { id := 1, username := "ana", password := bcryptHash 2 "pw" }
      "bob" "x" "pw" "y" "ana" "new" 7 3 4 4 9 0 (by decide)
  refine ⟨h.2.2.2.2.1 { id := 1, username := "ana", password := bcryptHash 4 "new" } ?_, ?_⟩
  · decide
  · decide

end ZooApp
